import Mathlib

/-!
Verification of the `inbox_cleaner` triage pipeline
(`process_all_unread_emails.py`).

The pipeline enumerates unread Gmail messages page by page, parses each
message into a record, asks a chat-completion oracle whether the message is
safe to mark read, and removes the UNREAD label when the answer is the
literal string "True".  The network environment (page fetches, message
fetches, oracle responses, mutation outcomes) is modelled by explicit
scripts, so every function below is a direct shallow embedding of the
corresponding Python function, with exceptions modelled as explicit error
constructors exactly where the source catches them.
-/

namespace InboxCleaner

/-- Outcome of one call to the chat-completions endpoint inside
`evaluate_email` (lines 254-263): `err` models an exception raised by the
call and caught at line 261, `ok text` a successful completion whose
extracted message content (line 266) is `text`. -/
inductive OracleOutcome where
  | err : OracleOutcome
  | ok : String → OracleOutcome
deriving DecidableEq

/-- One raw message header, a name/value pair (an entry of
`msg["payload"]["headers"]`). -/
structure Header where
  name : String
  value : String
deriving DecidableEq

/-- One content part of the message payload: its MIME type and optional body
data.  The `data` field is modelled after base64url decoding (the decoding
itself, line 138, is an external library call on which no claim depends). -/
structure Part where
  mimeType : String
  data : Option String
deriving DecidableEq

/-- Full message as returned by the `get` call with full format
(lines 107-112): payload headers and parts, and the label ids. -/
structure RawMessage where
  headers : List Header
  parts : List Part
  labelIds : List String
deriving DecidableEq

/-- Outcome of the per-message `get` call (lines 107-112): `err` models an
exception, caught at line 113. -/
inductive GetOutcome where
  | err : GetOutcome
  | ok : RawMessage → GetOutcome
deriving DecidableEq

/-- Header extraction by exact case-sensitive name match, as in the
generator expressions of `parse_email_data` (lines 119-126): the value of
the first header bearing the given name, or `none` when there is no such
header (a `StopIteration` for the required headers, the `None` default for
`Cc`). -/
def findHeader (headers : List Header) (name : String) : Option String :=
  (headers.find? (fun h => h.name == name)).map (fun h => h.value)

/-- Body extraction (lines 134-141): the first part whose MIME type is
exactly "text/plain" yields its data, the empty string standing in when the
data field is absent; with no such part the body is the empty string. -/
def extractBody : List Part → String
  | [] => ""
  | p :: rest => if p.mimeType == "text/plain" then p.data.getD ("") else extractBody rest

/-- The dictionary built by `parse_email_data` on success (lines 144-151):
subject, to, from (the local is called `sender` in the source), optional cc,
labels and plain-text body.  The empty `Unparsable` dictionary returned at
lines 115 and 129 is modelled as `none` at type `Option ParsedEmail`: the
source only ever produces either the empty dictionary or one carrying all
six keys. -/
structure ParsedEmail where
  subject : String
  «to» : String
  sender : String
  cc : Option String
  labels : List String
  body : String
deriving DecidableEq

/-- `parse_email_data` (lines 92-152) as a function of the `get` call's
outcome: an exception while fetching yields the empty record (line 115); a
missing required header (`Subject`, `To` or `From`) raises `StopIteration`,
caught at line 127, again yielding the empty record; otherwise the full
record is built. -/
def parse_email_data : GetOutcome → Option ParsedEmail
  | .err => none
  | .ok msg =>
    match findHeader msg.headers ("Subject"), findHeader msg.headers ("To"),
        findHeader msg.headers ("From") with
    | some subject, some to_, some sender =>
      some ⟨subject, to_, sender, findHeader msg.headers ("Cc"), msg.labelIds,
        extractBody msg.parts⟩
    | _, _, _ => none

/-- The default of the `MAX_EMAIL_LEN` parameter of `evaluate_email`
(line 161), used by `process_email` which passes no explicit value. -/
def DEFAULT_MAX_EMAIL_LEN : Nat := 5000

/-- Body truncation as in `evaluate_email` (lines 231-233): the slice
`body[:MAX_EMAIL_LEN]` — the first `MAX_EMAIL_LEN` characters — with the
literal "..." appended exactly when the body is strictly longer. -/
def truncateBody (body : String) (MAX_EMAIL_LEN : Nat) : String :=
  body.take MAX_EMAIL_LEN ++ (if body.length > MAX_EMAIL_LEN then "..." else "")

/-- Python f-string interpolation of the optional `cc` value (line 247):
`None` when absent, the string itself otherwise. -/
def pyOfOptStr : Option String → String
  | none => "None"
  | some s => s

/-- Python f-string interpolation of the label list (line 248): the list
`repr`, each label between single quotes. -/
def pyOfStrList (l : List String) : String :=
  "[" ++ String.intercalate (", ") (l.map (fun s => "\x27" ++ s ++ "\x27")) ++ "]"

/-- The user message content built by `evaluate_email` (lines 241-251). -/
def user_message (e : ParsedEmail) (MAX_EMAIL_LEN : Nat) : String :=
  "Subject: " ++ e.subject ++ "\n" ++
  "To: " ++ e.«to» ++ "\n" ++
  "From: " ++ e.sender ++ "\n" ++
  "Cc: " ++ pyOfOptStr e.cc ++ "\n" ++
  "Gmail labels: " ++ pyOfStrList e.labels ++ "\n" ++
  "Body: " ++ truncateBody e.body MAX_EMAIL_LEN

/-- Python `str.strip()` with no argument (line 266): removes leading and
trailing whitespace characters. -/
def pyStrip (s : String) : String :=
  String.mk (((s.data.dropWhile Char.isWhitespace).reverse.dropWhile
    Char.isWhitespace).reverse)

/-- `evaluate_email` (lines 155-266), as a function of the record and of the
oracle's behavior (a map from the user message content to the outcome of the
completions call).  Returns the boolean decision together with the number of
oracle calls made.  A record lacking the body key — the empty `Unparsable`
record, `none` — returns `false` at line 236 without calling the oracle; an
exception from the completions call returns `false` at line 263; otherwise
the decision is whether the whitespace-stripped response text equals the
literal "True" (line 266). -/
def evaluate_email (email_data : Option ParsedEmail)
    (oracle : String → OracleOutcome) (MAX_EMAIL_LEN : Nat) : Bool × Nat :=
  match email_data with
  | none => (false, 0)
  | some e =>
    match oracle (user_message e MAX_EMAIL_LEN) with
    | .err => (false, 1)
    | .ok text => (pyStrip text == "True", 1)

/-- One invocation of the `modify` call issued by `process_email`
(lines 306-308): the target message id and the label ids the request adds
and removes.  The source request body carries only
`removeLabelIds=["UNREAD"]`, i.e. it adds no label. -/
structure MutationEvent where
  id : String
  addLabelIds : List String
  removeLabelIds : List String
deriving DecidableEq

/-- `process_email` (lines 269-317) as a function of the message id, the
parsed record, the oracle behavior, and whether the `modify` call succeeds
(`modifyOk = false` models an exception, caught at line 311).  When the
decision is `true` the modify call is issued once, recorded as a
`MutationEvent`; the function returns the source's integer result — 1 when
the email was marked read, 0 otherwise — together with the list of modify
invocations made. -/
def process_email (id : String) (email_data_parsed : Option ParsedEmail)
    (oracle : String → OracleOutcome) (modifyOk : Bool) :
    Nat × List MutationEvent :=
  if (evaluate_email email_data_parsed oracle DEFAULT_MAX_EMAIL_LEN).fst then
    if modifyOk then (1, [⟨id, [], ["UNREAD"]⟩])
    else (0, [⟨id, [], ["UNREAD"]⟩])
  else (0, [])

/-- Environment script for one message reference of a page: the reference id
together with the scripted outcomes of its `get` fetch, of the oracle call,
and of the `modify` call. -/
structure MsgScript where
  id : String
  getResult : GetOutcome
  oracle : OracleOutcome
  modifyOk : Bool
deriving DecidableEq

/-- Outcome of one `list` call (lines 73-82): `err` models an exception,
caught at line 83; `ok` carries the message list (each reference bundled
with its environment script) and the optional `nextPageToken` of the
response. -/
inductive FetchOutcome where
  | err : FetchOutcome
  | ok : List MsgScript → Option String → FetchOutcome
deriving DecidableEq

/-- `fetch_emails` (lines 58-89): an exception yields the empty list and no
token (line 85); otherwise the message list (`results.get("messages", [])`)
and the optional next page token (`results.get("nextPageToken")`). -/
def fetch_emails : FetchOutcome → List MsgScript × Option String
  | .err => ([], none)
  | .ok messages page_token => (messages, page_token)

/-- Python truthiness test `not page_token` (line 384): `None` and the empty
string are falsy, every non-empty string is truthy. -/
def tokenFalsy : Option String → Bool
  | none => true
  | some s => s.isEmpty

/-- The run counters of `main` (lines 357-359), under their source names:
`total_unread_emails` is the spec's `totalFetched`, `total_pages_fetched`
its `pagesFetched`, `total_marked_as_read` its `totalMarkedRead`. -/
structure Stats where
  total_unread_emails : Nat
  total_pages_fetched : Nat
  total_marked_as_read : Nat
deriving DecidableEq

/-- The decision computed for one scripted message: `parse_email_data`
followed by the evaluation performed inside `process_email`. -/
def decisionOf (m : MsgScript) : Bool :=
  (evaluate_email (parse_email_data m.getResult) (fun _ => m.oracle)
    DEFAULT_MAX_EMAIL_LEN).fst

/-- The per-page message loop of `main` (lines 368-382): each message is
parsed (line 371) and processed (lines 374-382); the returned counts are
accumulated into `total_marked_as_read`.  Also collects the modify
invocations made on this page. -/
def process_page : List MsgScript → Nat × List MutationEvent
  | [] => (0, [])
  | m :: rest =>
    ((process_email m.id (parse_email_data m.getResult) (fun _ => m.oracle)
        m.modifyOk).fst + (process_page rest).fst,
      (process_email m.id (parse_email_data m.getResult) (fun _ => m.oracle)
        m.modifyOk).snd ++ (process_page rest).snd)

/-- Counter updates performed for one fetched page (lines 364, 367 and 374):
one more page fetched, the page size added to `total_unread_emails`, and the
page's marked-read count added to `total_marked_as_read`. -/
def pageStats (stats : Stats) (messages : List MsgScript) : Stats :=
  ⟨stats.total_unread_emails + messages.length,
    stats.total_pages_fetched + 1,
    stats.total_marked_as_read + (process_page messages).fst⟩

/-- Result of the page loop: the final counters, the modify invocations made
during the run, and whether the loop exited through its `break` at line 386
(`false` means the explicit fuel ran out first; the source loop is
unbounded, so every claim about the whole loop is stated for sufficient
fuel). -/
structure RunResult where
  stats : Stats
  mutations : List MutationEvent
  finished : Bool
deriving DecidableEq

/-- The `while True` page loop of `main` (lines 361-386), driven by a script
mapping the index of each page fetch to its outcome.  Each iteration fetches
one page, updates the counters, processes the page's messages, and breaks
when the returned page token is falsy (line 384). -/
def runLoop (script : Nat → FetchOutcome) :
    Nat → Nat → Stats → List MutationEvent → RunResult
  | 0, _, stats, trace => ⟨stats, trace, false⟩
  | fuel + 1, page, stats, trace =>
    if tokenFalsy (fetch_emails (script page)).snd then
      ⟨pageStats stats (fetch_emails (script page)).fst,
        trace ++ (process_page (fetch_emails (script page)).fst).snd, true⟩
    else
      runLoop script fuel (page + 1)
        (pageStats stats (fetch_emails (script page)).fst)
        (trace ++ (process_page (fetch_emails (script page)).fst).snd)

/-- `main` (lines 331-389) from its initial state: page token `None`
(modelled as page index 0 of the script) and all counters zero. -/
def main_run (script : Nat → FetchOutcome) (fuel : Nat) : RunResult :=
  runLoop script fuel 0 ⟨0, 0, 0⟩ []

/-- The "Final number of unread emails" computed by `report_statistics`
(line 327): `total_unread_emails - total_marked_as_read`, over the integers
since Python subtraction does not truncate. -/
def final_unread (s : Stats) : Int :=
  (s.total_unread_emails : Int) - (s.total_marked_as_read : Int)

/-- C1: for every record that reaches the oracle branch, the decision
returned by `evaluate_email` is `true` if and only if the completions call
returns a response whose whitespace-stripped text is the literal string
"True"; consequently every other response — "true", "false", the empty
string — as well as an exception while obtaining the response, yields
`false`. -/
theorem C1_decision_iff_stripped_True (e : ParsedEmail)
    (oracle : String → OracleOutcome) (maxLen : Nat) :
    ((evaluate_email (some e) oracle maxLen).fst = true ↔
      ∃ text, oracle (user_message e maxLen) = OracleOutcome.ok text ∧
        pyStrip text = "True") ∧
    (oracle (user_message e maxLen) = OracleOutcome.err →
      (evaluate_email (some e) oracle maxLen).fst = false) := by
  cases ho : oracle (user_message e maxLen) with
  | err =>
    refine ⟨⟨fun h => ?_, fun h => ?_⟩, fun _ => ?_⟩
    · simp [evaluate_email, ho] at h
    · obtain ⟨t, ht, _⟩ := h
      cases ht
    · simp [evaluate_email, ho]
  | ok text =>
    refine ⟨⟨fun h => ?_, fun h => ?_⟩, fun hc => ?_⟩
    · simp only [evaluate_email, ho, beq_iff_eq] at h
      exact ⟨text, rfl, h⟩
    · obtain ⟨t, ht, htrim⟩ := h
      cases ht
      simp only [evaluate_email, ho, beq_iff_eq]
      exact htrim
    · cases hc

/-- Witness for C1: a concrete record with an oracle that raises evaluates
to `false`. -/
theorem C1_witness :
    (evaluate_email (some ⟨"Hi", "a@b", "c@d", none, ["UNREAD"], "hello"⟩)
      (fun _ => OracleOutcome.err) 5000).fst = false :=
  (C1_decision_iff_stripped_True ⟨"Hi", "a@b", "c@d", none, ["UNREAD"], "hello"⟩
    (fun _ => OracleOutcome.err) 5000).2 rfl

/-- C7: the empty `Unparsable` record — the only record value the source
produces without a body key — makes `evaluate_email` return `false` with
zero oracle calls, whatever the oracle behavior and length limit. -/
theorem C7_missing_body_false_without_oracle
    (oracle : String → OracleOutcome) (maxLen : Nat) :
    evaluate_email none oracle maxLen = (false, 0) := rfl

/-- C4: the truncated body is the first min(L, MAX_EMAIL_LEN) characters of
the body, with the literal "..." appended exactly when L > MAX_EMAIL_LEN;
in particular a body of length at most MAX_EMAIL_LEN passes through
unchanged. -/
theorem C4_truncation_shape (body : String) (maxLen : Nat) :
    truncateBody body maxLen =
      String.mk (body.data.take (min body.length maxLen)) ++
        (if body.length > maxLen then "..." else "") ∧
    (body.length ≤ maxLen → truncateBody body maxLen = body) := by
  have hlen : body.length = body.data.length := rfl
  constructor
  · rw [truncateBody, String.take_eq]
    congr 2
    rw [List.take_eq_take]
    omega
  · intro h
    rw [truncateBody, if_neg (by omega), String.take_eq,
      List.take_of_length_le (by omega), String.append_empty]

/-- Witness for C4: a short body passes through unchanged, and a long body
is cut to the limit with the "..." suffix. -/
theorem C4_witness :
    truncateBody ("ab") 5 = "ab" ∧
    truncateBody ("abcdef") 3 =
      String.mk ("abcdef".data.take (min ("abcdef".length) 3)) ++
        (if "abcdef".length > 3 then "..." else "") :=
  ⟨(C4_truncation_shape ("ab") 5).2 (by decide), (C4_truncation_shape ("abcdef") 3).1⟩

/-- C3: the mark-read mutation is issued exactly once when the decision for
the record is true and never otherwise; the empty `Unparsable` record —
produced when the message fetch or a required-header extraction fails —
never leads to a mutation. -/
theorem C3_modify_iff_decision (id : String) (record : Option ParsedEmail)
    (oracle : String → OracleOutcome) (modifyOk : Bool) :
    (process_email id record oracle modifyOk).snd.length =
      (if (evaluate_email record oracle DEFAULT_MAX_EMAIL_LEN).fst
        then 1 else 0) ∧
    (record = none → (process_email id record oracle modifyOk).snd = []) ∧
    parse_email_data GetOutcome.err = none := by
  refine ⟨?_, ?_, rfl⟩
  · by_cases hd : (evaluate_email record oracle DEFAULT_MAX_EMAIL_LEN).fst = true
    · cases modifyOk <;> simp [process_email, hd]
    · simp [process_email, hd]
  · rintro rfl
    rfl

/-- Witness for C3: the `Unparsable` record issues no mutation. -/
theorem C3_witness :
    (process_email ("m1") none (fun _ => OracleOutcome.ok ("True")) true).snd = [] :=
  (C3_modify_iff_decision ("m1") none (fun _ => OracleOutcome.ok ("True")) true).2.1 rfl

/-- C6: the per-message marked-read count returned by `process_email` is 1
exactly when the decision is true and the modify call succeeds; in
particular a failed mutation after a true decision is recovered locally —
the function still returns, with count 0 — so `total_marked_as_read` is
never incremented for that message. -/
theorem C6_count_iff_mutation_success (id : String)
    (record : Option ParsedEmail) (oracle : String → OracleOutcome)
    (modifyOk : Bool) :
    (process_email id record oracle modifyOk).fst =
      (if (evaluate_email record oracle DEFAULT_MAX_EMAIL_LEN).fst && modifyOk
        then 1 else 0) := by
  by_cases hd : (evaluate_email record oracle DEFAULT_MAX_EMAIL_LEN).fst = true <;>
    cases modifyOk <;> simp [process_email, hd]

/-- Each processed message contributes at most 1 to the marked-read count. -/
theorem process_email_fst_le_one (id : String) (record : Option ParsedEmail)
    (oracle : String → OracleOutcome) (modifyOk : Bool) :
    (process_email id record oracle modifyOk).fst ≤ 1 := by
  by_cases hd : (evaluate_email record oracle DEFAULT_MAX_EMAIL_LEN).fst = true <;>
    cases modifyOk <;> simp [process_email, hd]

/-- A page contributes at most its own size to the marked-read count. -/
theorem process_page_fst_le_length (l : List MsgScript) :
    (process_page l).fst ≤ l.length := by
  induction l with
  | nil => simp [process_page]
  | cons m rest ih =>
    have h1 := process_email_fst_le_one m.id (parse_email_data m.getResult)
      (fun _ => m.oracle) m.modifyOk
    rw [process_page]
    simp only [List.length_cons]
    omega

/-- The page loop preserves the invariant that the marked-read counter never
exceeds the fetched-message counter. -/
theorem runLoop_marked_le (script : Nat → FetchOutcome) (fuel : Nat) :
    ∀ (page : Nat) (stats : Stats) (trace : List MutationEvent),
      stats.total_marked_as_read ≤ stats.total_unread_emails →
      (runLoop script fuel page stats trace).stats.total_marked_as_read ≤
        (runLoop script fuel page stats trace).stats.total_unread_emails := by
  induction fuel with
  | zero =>
    intro page stats trace h
    simpa [runLoop] using h
  | succ fuel ih =>
    intro page stats trace h
    have hle := process_page_fst_le_length (fetch_emails (script page)).fst
    rw [runLoop]
    by_cases ht : tokenFalsy (fetch_emails (script page)).snd = true
    · rw [if_pos ht]
      simp only [pageStats]
      omega
    · rw [if_neg ht]
      refine ih (page + 1) _ _ ?_
      simp only [pageStats]
      omega

/-- C2: from any loop state in which marked ≤ fetched — in particular the
initial all-zero state of `main`, and hence every state the run ever
reaches — the counters still satisfy marked ≤ fetched afterwards, so the
final unread count reported by `report_statistics` is nonnegative. -/
theorem C2_final_unread_nonneg (script : Nat → FetchOutcome)
    (fuel page : Nat) (stats : Stats) (trace : List MutationEvent)
    (h : stats.total_marked_as_read ≤ stats.total_unread_emails) :
    (runLoop script fuel page stats trace).stats.total_marked_as_read ≤
      (runLoop script fuel page stats trace).stats.total_unread_emails ∧
    0 ≤ final_unread (runLoop script fuel page stats trace).stats := by
  have h1 := runLoop_marked_le script fuel page stats trace h
  refine ⟨h1, ?_⟩
  rw [final_unread]
  omega

/-- Witness for C2: the invariant holds for a concrete one-page run started
from the initial all-zero counters of `main`. -/
theorem C2_witness :
    (runLoop (fun _ => FetchOutcome.ok [] none) 1 0 ⟨0, 0, 0⟩
        []).stats.total_marked_as_read ≤
      (runLoop (fun _ => FetchOutcome.ok [] none) 1 0 ⟨0, 0, 0⟩
        []).stats.total_unread_emails ∧
    0 ≤ final_unread (runLoop (fun _ => FetchOutcome.ok [] none) 1 0
      ⟨0, 0, 0⟩ []).stats :=
  C2_final_unread_nonneg (fun _ => FetchOutcome.ok [] none) 1 0 ⟨0, 0, 0⟩ []
    (Nat.le_refl 0)

/-- When the cursors of the first k pages are truthy and the cursor of page
k is falsy, the loop breaks right after page k: it performs exactly k+1
fetches, for any fuel above k. -/
theorem runLoop_stops (script : Nat → FetchOutcome) :
    ∀ (k fuel page : Nat) (stats : Stats) (trace : List MutationEvent),
      (∀ i, i < k → tokenFalsy (fetch_emails (script (page + i))).snd = false) →
      tokenFalsy (fetch_emails (script (page + k))).snd = true →
      k < fuel →
      (runLoop script fuel page stats trace).finished = true ∧
      (runLoop script fuel page stats trace).stats.total_pages_fetched =
        stats.total_pages_fetched + (k + 1) := by
  intro k
  induction k with
  | zero =>
    intro fuel page stats trace hprev hk hfuel
    cases fuel with
    | zero => omega
    | succ fuel =>
      rw [Nat.add_zero] at hk
      rw [runLoop, if_pos hk]
      exact ⟨rfl, by simp [pageStats]⟩
  | succ k ih =>
    intro fuel page stats trace hprev hk hfuel
    cases fuel with
    | zero => omega
    | succ fuel =>
      have h0 : tokenFalsy (fetch_emails (script page)).snd = false := by
        simpa using hprev 0 (Nat.succ_pos k)
      rw [runLoop, if_neg (by rw [h0]; exact Bool.false_ne_true)]
      have ih2 := ih fuel (page + 1)
        (pageStats stats (fetch_emails (script page)).fst)
        (trace ++ (process_page (fetch_emails (script page)).fst).snd)
        (fun i hi => by
          have hx := hprev (i + 1) (by omega)
          rwa [show page + (i + 1) = page + 1 + i from by omega] at hx)
        (by rwa [show page + 1 + k = page + (k + 1) from by omega])
        (by omega)
      refine ⟨ih2.1, ?_⟩
      rw [ih2.2]
      simp only [pageStats]
      omega

/-- C8: when the cursors returned for pages 0..k-1 are truthy and page k
returns a falsy cursor, the run terminates having invoked the page fetch
exactly k+1 times — in particular a scripted source whose cursors are
[A, B, none] gives exactly 3 fetches and 3 counted pages. -/
theorem C8_pagination_terminates (script : Nat → FetchOutcome) (k fuel : Nat)
    (hprev : ∀ i, i < k → tokenFalsy (fetch_emails (script i)).snd = false)
    (hk : tokenFalsy (fetch_emails (script k)).snd = true)
    (hfuel : k < fuel) :
    (main_run script fuel).finished = true ∧
    (main_run script fuel).stats.total_pages_fetched = k + 1 := by
  have hs := runLoop_stops script k fuel 0 ⟨0, 0, 0⟩ []
    (fun i hi => by simpa using hprev i hi) (by simpa using hk) hfuel
  exact ⟨hs.1, by simp only [main_run]; simpa using hs.2⟩

/-- Witness for C8: the scripted source with cursors [A, B, none] fetches
exactly 3 pages and terminates. -/
theorem C8_witness :
    (main_run (fun n => if n = 0 then FetchOutcome.ok [] (some ("A"))
        else if n = 1 then FetchOutcome.ok [] (some ("B"))
        else FetchOutcome.ok [] none) 3).finished = true ∧
    (main_run (fun n => if n = 0 then FetchOutcome.ok [] (some ("A"))
        else if n = 1 then FetchOutcome.ok [] (some ("B"))
        else FetchOutcome.ok [] none) 3).stats.total_pages_fetched = 2 + 1 :=
  C8_pagination_terminates
    (fun n => if n = 0 then FetchOutcome.ok [] (some ("A"))
      else if n = 1 then FetchOutcome.ok [] (some ("B"))
      else FetchOutcome.ok [] none) 2 3 (by decide) (by decide) (by decide)

/-- C5: a failed list call is recovered as the empty page with no token, and
when it happens at page k of a run whose earlier cursors were truthy, the
loop performs no further fetch: the run ends with exactly k+1 pages fetched,
the failed page contributing no message. -/
theorem C5_fetch_failure_ends_run (script : Nat → FetchOutcome) (k fuel : Nat)
    (hprev : ∀ i, i < k → tokenFalsy (fetch_emails (script i)).snd = false)
    (hk : script k = FetchOutcome.err) (hfuel : k < fuel) :
    fetch_emails FetchOutcome.err = ([], none) ∧
    (main_run script fuel).finished = true ∧
    (main_run script fuel).stats.total_pages_fetched = k + 1 := by
  have hfalsy : tokenFalsy (fetch_emails (script k)).snd = true := by
    rw [hk]
    rfl
  have hs := runLoop_stops script k fuel 0 ⟨0, 0, 0⟩ []
    (fun i hi => by simpa using hprev i hi) (by simpa using hfalsy) hfuel
  exact ⟨rfl, hs.1, by simp only [main_run]; simpa using hs.2⟩

/-- Witness for C5: a run whose very first fetch fails stops after that one
(empty) page. -/
theorem C5_witness :
    fetch_emails FetchOutcome.err = ([], none) ∧
    (main_run (fun _ => FetchOutcome.err) 1).finished = true ∧
    (main_run (fun _ => FetchOutcome.err) 1).stats.total_pages_fetched = 0 + 1 :=
  C5_fetch_failure_ends_run (fun _ => FetchOutcome.err) 0 1
    (fun i hi => absurd hi (Nat.not_lt_zero i)) rfl Nat.one_pos

/-- Every modify invocation issued for one message targets that message's
id, adds no label, removes exactly UNREAD, and happens only under a true
decision. -/
theorem process_email_mutations (id : String) (record : Option ParsedEmail)
    (oracle : String → OracleOutcome) (modifyOk : Bool) :
    ∀ e ∈ (process_email id record oracle modifyOk).snd,
      e = (⟨id, [], ["UNREAD"]⟩ : MutationEvent) ∧
      (evaluate_email record oracle DEFAULT_MAX_EMAIL_LEN).fst = true := by
  intro e he
  by_cases hd : (evaluate_email record oracle DEFAULT_MAX_EMAIL_LEN).fst = true
  · cases modifyOk <;> simp [process_email, hd] at he <;> exact ⟨he, hd⟩
  · simp [process_email, hd] at he

/-- Every modify invocation issued while processing a page adds no label and
removes exactly UNREAD. -/
theorem process_page_mutations (l : List MsgScript) :
    ∀ e ∈ (process_page l).snd,
      e.addLabelIds = [] ∧ e.removeLabelIds = ["UNREAD"] := by
  induction l with
  | nil =>
    intro e he
    simp [process_page] at he
  | cons m rest ih =>
    intro e he
    rw [process_page] at he
    rcases List.mem_append.mp he with h | h
    · have := (process_email_mutations m.id (parse_email_data m.getResult)
        (fun _ => m.oracle) m.modifyOk e h).1
      rw [this]
      exact ⟨rfl, rfl⟩
    · exact ih e h

/-- Every modify invocation accumulated by the page loop, beyond those
already in the incoming trace, adds no label and removes exactly UNREAD. -/
theorem runLoop_mutations (script : Nat → FetchOutcome) (fuel : Nat) :
    ∀ (page : Nat) (stats : Stats) (trace : List MutationEvent),
      (∀ e ∈ trace, e.addLabelIds = [] ∧ e.removeLabelIds = ["UNREAD"]) →
      ∀ e ∈ (runLoop script fuel page stats trace).mutations,
        e.addLabelIds = [] ∧ e.removeLabelIds = ["UNREAD"] := by
  induction fuel with
  | zero =>
    intro page stats trace htr e he
    exact htr e (by simpa [runLoop] using he)
  | succ fuel ih =>
    intro page stats trace htr e he
    rw [runLoop] at he
    by_cases ht : tokenFalsy (fetch_emails (script page)).snd = true
    · rw [if_pos ht] at he
      simp only at he
      rcases List.mem_append.mp he with h | h
      · exact htr e h
      · exact process_page_mutations _ e h
    · rw [if_neg ht] at he
      refine ih (page + 1) _ _ ?_ e he
      intro x hx
      rcases List.mem_append.mp hx with h | h
      · exact htr x h
      · exact process_page_mutations _ x h

/-- C9: every mutation the pipeline issues during a run removes exactly the
UNREAD label and adds none; per message, a mutation is issued only when the
decision for that message is true, and it targets that message's id. -/
theorem C9_only_unread_removal (script : Nat → FetchOutcome) (fuel : Nat) :
    (∀ e ∈ (main_run script fuel).mutations,
      e.addLabelIds = [] ∧ e.removeLabelIds = ["UNREAD"]) ∧
    (∀ (id : String) (record : Option ParsedEmail)
        (oracle : String → OracleOutcome) (modifyOk : Bool),
      ∀ e ∈ (process_email id record oracle modifyOk).snd,
        e = (⟨id, [], ["UNREAD"]⟩ : MutationEvent) ∧
        (evaluate_email record oracle DEFAULT_MAX_EMAIL_LEN).fst = true) :=
  ⟨fun e he => runLoop_mutations script fuel 0 ⟨0, 0, 0⟩ []
      (fun x hx => absurd hx (List.not_mem_nil x)) e he,
    process_email_mutations⟩

/-- Witness for C9: a concrete run that marks one message read produces the
single mutation removing UNREAD from that message and adding nothing. -/
theorem C9_witness :
    ((⟨"m1", [], ["UNREAD"]⟩ : MutationEvent).addLabelIds = [] ∧
      (⟨"m1", [], ["UNREAD"]⟩ : MutationEvent).removeLabelIds = ["UNREAD"]) :=
  (C9_only_unread_removal
    (fun _ => FetchOutcome.ok
      [⟨"m1",
        GetOutcome.ok ⟨[⟨"Subject", "S"⟩, ⟨"To", "t@x"⟩, ⟨"From", "f@y"⟩],
          [], ["UNREAD"]⟩,
        OracleOutcome.ok ("True"), true⟩] none) 1).1
    ⟨"m1", [], ["UNREAD"]⟩ (by decide)

/-- Two scripts that agree on the pages actually visited, and whose
stopping page carries the same messages under possibly different falsy
tokens, drive the loop to the same result. -/
theorem runLoop_falsy_token_ext (script₁ script₂ : Nat → FetchOutcome) :
    ∀ (k fuel page : Nat) (stats : Stats) (trace : List MutationEvent),
      (∀ i, i < k → script₁ (page + i) = script₂ (page + i) ∧
        tokenFalsy (fetch_emails (script₁ (page + i))).snd = false) →
      (∃ msgs t₁ t₂, script₁ (page + k) = FetchOutcome.ok msgs t₁ ∧
        script₂ (page + k) = FetchOutcome.ok msgs t₂ ∧
        tokenFalsy t₁ = true ∧ tokenFalsy t₂ = true) →
      k < fuel →
      runLoop script₁ fuel page stats trace =
        runLoop script₂ fuel page stats trace := by
  intro k
  induction k with
  | zero =>
    intro fuel page stats trace hprev hk hfuel
    obtain ⟨msgs, t₁, t₂, h1, h2, hf1, hf2⟩ := hk
    rw [Nat.add_zero] at h1 h2
    cases fuel with
    | zero => omega
    | succ fuel =>
      rw [runLoop, runLoop, h1, h2]
      rw [if_pos (by simpa [fetch_emails] using hf1),
        if_pos (by simpa [fetch_emails] using hf2)]
      simp [fetch_emails]
  | succ k ih =>
    intro fuel page stats trace hprev hk hfuel
    cases fuel with
    | zero => omega
    | succ fuel =>
      have h0 := hprev 0 (Nat.succ_pos k)
      rw [Nat.add_zero] at h0
      have hfalse : tokenFalsy (fetch_emails (script₁ page)).snd = false := h0.2
      rw [runLoop, runLoop, ← h0.1]
      rw [if_neg (by rw [hfalse]; exact Bool.false_ne_true),
        if_neg (by rw [hfalse]; exact Bool.false_ne_true)]
      refine ih fuel (page + 1) _ _ ?_ ?_ (by omega)
      · intro i hi
        have hx := hprev (i + 1) (by omega)
        rwa [show page + (i + 1) = page + 1 + i from by omega] at hx
      · obtain ⟨msgs, t₁, t₂, h1, h2, hf1, hf2⟩ := hk
        refine ⟨msgs, t₁, t₂, ?_, ?_, hf1, hf2⟩
        · rwa [show page + 1 + k = page + (k + 1) from by omega]
        · rwa [show page + 1 + k = page + (k + 1) from by omega]

/-- C10: the loop's stopping test holds exactly for the absent cursor and
the empty-string cursor, and a run whose page k returns the empty-string
cursor (its earlier cursors being truthy) stops after page k with exactly
k+1 fetches — and is, as a whole, equal to the run whose page k returns no
cursor at all. -/
theorem C10_empty_cursor_like_none (script : Nat → FetchOutcome)
    (msgs : List MsgScript) (k fuel : Nat)
    (hprev : ∀ i, i < k → tokenFalsy (fetch_emails (script i)).snd = false)
    (hk : script k = FetchOutcome.ok msgs (some ("")))
    (hfuel : k < fuel) :
    (∀ t, tokenFalsy t = true ↔ t = none ∨ t = some ("")) ∧
    (main_run script fuel).finished = true ∧
    (main_run script fuel).stats.total_pages_fetched = k + 1 ∧
    main_run script fuel =
      main_run (fun n => if n = k then FetchOutcome.ok msgs none else script n)
        fuel := by
  have hchar : ∀ t, tokenFalsy t = true ↔ t = none ∨ t = some ("") := by
    intro t
    cases t with
    | none => simp [tokenFalsy]
    | some s =>
      simp [tokenFalsy, String.isEmpty_iff]
  have hfalsy : tokenFalsy (fetch_emails (script k)).snd = true := by
    rw [hk]
    rfl
  have hs := runLoop_stops script k fuel 0 ⟨0, 0, 0⟩ []
    (fun i hi => by simpa using hprev i hi) (by simpa using hfalsy) hfuel
  refine ⟨hchar, hs.1, by simp only [main_run]; simpa using hs.2, ?_⟩
  rw [main_run, main_run]
  refine runLoop_falsy_token_ext script _ k fuel 0 ⟨0, 0, 0⟩ []
    (fun i hi => ⟨?_, by simpa using hprev i hi⟩) ?_ hfuel
  · have hne : ¬(i = k) := by omega
    simp [hne]
  · refine ⟨msgs, some (""), none, by simpa using hk, ?_, rfl, rfl⟩
    simp

/-- Witness for C10: a run whose single page returns the empty-string
cursor terminates at once and equals the run returning no cursor. -/
theorem C10_witness :
    (∀ t, tokenFalsy t = true ↔ t = none ∨ t = some ("")) ∧
    (main_run (fun _ => FetchOutcome.ok [] (some (""))) 1).finished = true ∧
    (main_run (fun _ => FetchOutcome.ok [] (some (""))) 1).stats.total_pages_fetched
      = 0 + 1 ∧
    main_run (fun _ => FetchOutcome.ok [] (some (""))) 1 =
      main_run (fun n => if n = 0 then FetchOutcome.ok [] none
        else FetchOutcome.ok [] (some (""))) 1 :=
  C10_empty_cursor_like_none (fun _ => FetchOutcome.ok [] (some (""))) [] 0 1
    (fun i hi => absurd hi (Nat.not_lt_zero i)) rfl Nat.one_pos

end InboxCleaner
